import Mathlib

/-!
Shallow embedding of `src/view.rs` from the things-to-check service.

The service loads a fixed list of troubleshooting suggestions from an
embedded YAML asset, and serves them over two endpoints:

* `GET /` (handler `index`): an HTML page with one suggestion, chosen by
  the optional `item` query parameter or at random.
* `POST /slack/troubleshoot` (handler `slack_troubleshoot`): a
  Slack-compatible JSON message with a random suggestion.

External library behaviour (serde_yaml parsing, pulldown-cmark markdown
rendering, actix url_for, serde_urlencoded) is parameterized: the
embedding takes those functions or their results as arguments, and the
control flow around them follows the Rust source.
-/

namespace ThingsToCheck

/-- One suggestion (struct `Thing`): the raw markdown text and its
rendered HTML fragment. -/
structure Thing where
  markdown : String
  html : String
deriving DecidableEq, Repr

/-- The conversion `impl From<String> for Thing`: keeps the markdown
unchanged and renders it to HTML with pulldown-cmark (an external
library, passed in as `render`). -/
def Thing.fromString (render : String → String) (markdown : String) : Thing :=
  ⟨markdown, render markdown⟩

/-- The application data (struct `Things`): the list of suggestions,
each paired with its index. -/
structure Things where
  items : List (Nat × Thing)
deriving DecidableEq, Repr

/-- The query parameters of `GET /` (struct `ItemQuery`). -/
structure ItemQuery where
  item : Option Nat
deriving DecidableEq, Repr

/-- The conversion `impl From<usize> for ItemQuery`. -/
def ItemQuery.fromIdx (idx : Nat) : ItemQuery := ⟨some idx⟩

/-- The `Default` instance of `ItemQuery`: no index. -/
def ItemQuery.defaultQuery : ItemQuery := ⟨none⟩

/-- How serde_urlencoded serializes an `ItemQuery`: `None` fields are
skipped, a present field becomes `item=<n>`. -/
def ItemQuery.encode (q : ItemQuery) : String :=
  match q.item with
  | none => ""
  | some n => "item=" ++ toString n

/-- A URL (the `url::Url` values the handlers build): a base plus an
optional query string, as far as the code manipulates them. -/
structure Url where
  base : String
  query : Option String
deriving DecidableEq, Repr

/-- The enum `UrlError`: the two ways building a link can fail. -/
inductive UrlError where
  | UrlGenerationError (msg : String)
  | SerializationError (msg : String)
deriving DecidableEq, Repr

/-- The `Display` text of a `UrlError` (thiserror attribute). -/
def UrlError.message : UrlError → String
  | .UrlGenerationError m => "Unable to generate URL: " ++ m
  | .SerializationError m => "Unable to generate URL: " ++ m

/-- The error type of actix handlers, restricted to the variants this
service produces (`ErrorNotFound` and `ErrorInternalServerError`). -/
inductive HttpError where
  | notFound (msg : String)
  | internalServerError (msg : String)
deriving DecidableEq, Repr

/-- The HTTP status code carried by an `HttpError`. -/
def HttpError.status : HttpError → Nat
  | .notFound _ => 404
  | .internalServerError _ => 500

/-- The conversion `impl From<UrlError> for error::Error`: every URL
error is reported with `error::ErrorInternalServerError`. -/
def UrlError.toHttpError (e : UrlError) : HttpError :=
  .internalServerError e.message

/-- The trait method `Urls::index for HttpRequest`: resolve the `index`
route with `url_for` (external, its result passed as `urlForIndex`),
serialize the query with serde_urlencoded (external, passed as
`toUrlencoded`), and set the URL's query string. -/
def urlsIndex (urlForIndex : Except String Url)
    (toUrlencoded : ItemQuery → Except String String)
    (query : ItemQuery) : Except UrlError Url :=
  match urlForIndex with
  | .error e => .error (.UrlGenerationError e)
  | .ok u =>
    match toUrlencoded query with
    | .error e => .error (.SerializationError e)
    | .ok s => .ok { u with query := some s }

/-- The trait method `Urls::suggestion`: the share link for index
`idx`, built from `ItemQuery::from(idx)`. -/
def urlsSuggestion (urlForIndex : Except String Url)
    (toUrlencoded : ItemQuery → Except String String)
    (idx : Nat) : Except UrlError Url :=
  urlsIndex urlForIndex toUrlencoded (ItemQuery.fromIdx idx)

/-- The trait method `Urls::new_suggestion`: the link to a fresh random
suggestion, built from the default (empty) query. -/
def urlsNewSuggestion (urlForIndex : Except String Url)
    (toUrlencoded : ItemQuery → Except String String) : Except UrlError Url :=
  urlsIndex urlForIndex toUrlencoded ItemQuery.defaultQuery

/-- The template data (struct `Suggestion`): the selected thing and its
index. -/
structure Suggestion where
  thing : Thing
  index : Nat
deriving DecidableEq, Repr

/-- The rendered page: the suggestion shown, plus the two links the
template builds through the `Urls` trait. -/
structure RenderedPage where
  index : Nat
  thing : Thing
  shareLink : Url
  newLink : Url
deriving DecidableEq, Repr

/-- Rendering of the `index.html` template: builds the share link with
`Urls::suggestion` and the fresh link with `Urls::new_suggestion`; a
failure of either aborts the render with that `UrlError`. -/
def renderSuggestion (urlForIndex : Except String Url)
    (toUrlencoded : ItemQuery → Except String String)
    (s : Suggestion) : Except UrlError RenderedPage :=
  match urlsSuggestion urlForIndex toUrlencoded s.index with
  | .error e => .error e
  | .ok share =>
    match urlsNewSuggestion urlForIndex toUrlencoded with
    | .error e => .error e
    | .ok fresh => .ok ⟨s.index, s.thing, share, fresh⟩

/-- A successful response of the `index` handler: status, declared
content type, extra headers inserted by `customize`, and the page. -/
structure HtmlResponse where
  status : Nat
  contentType : String
  headers : List (String × String)
  page : RenderedPage
deriving DecidableEq, Repr

/-- The model of rand's `SliceRandom::choose`: `None` on an empty
slice, otherwise the element at a uniformly drawn index; the randomness
state is the drawn number `r`. -/
def choose (l : List α) (r : Nat) : Option α :=
  if l.isEmpty then none else l[r % l.length]?

/-- The selection step of the `index` handler (the `match` on
`query.item`): a given index is looked up with `Vec::get`, a missing
one falls back to a random choice. -/
def selectThing (things : Things) (item : Option Nat) (r : Nat) :
    Option (Nat × Thing) :=
  match item with
  | some i => things.items[i]?
  | none => choose things.items r

/-- The `GET /` handler `index`: select a thing (NotFound when that
fails), render the page (URL errors surface through
`UrlError.toHttpError`), and attach the `Cache-Control: no-store`
header to the success response. -/
def index (things : Things) (query : ItemQuery) (r : Nat)
    (urlForIndex : Except String Url)
    (toUrlencoded : ItemQuery → Except String String) :
    Except HttpError HtmlResponse :=
  match selectThing things query.item r with
  | none => .error (.notFound "Not found")
  | some (idx, th) =>
    match renderSuggestion urlForIndex toUrlencoded ⟨th, idx⟩ with
    | .error e => .error e.toHttpError
    | .ok page =>
      .ok ⟨200, "text/html", [("Cache-Control", "no-store")], page⟩

/-- The JSON body of the Slack endpoint (struct `SlackMessage`). -/
structure SlackMessage where
  response_type : String
  text : String
deriving DecidableEq, Repr

/-- A successful response of the Slack endpoint: status, content type
and the JSON message. -/
structure JsonResponse where
  status : Nat
  contentType : String
  body : SlackMessage
deriving DecidableEq, Repr

/-- The `POST /slack/troubleshoot` handler `slack_troubleshoot`: choose
a random thing (NotFound when the list is empty) and answer with an
in_channel message holding its raw markdown. -/
def slack_troubleshoot (things : Things) (r : Nat) :
    Except HttpError JsonResponse :=
  match choose things.items r with
  | none => .error (.notFound "Not found")
  | some (_, th) =>
    .ok ⟨200, "application/json", ⟨"in_channel", th.markdown⟩⟩

/-- The YAML parse error of serde_yaml (external library; carried
opaquely). -/
structure YamlError where
  message : String
deriving DecidableEq, Repr

/-- The public enum `Error` of the module: the only variant wraps a
serde_yaml error. -/
inductive Error where
  | DeserializeError (e : YamlError)
deriving DecidableEq, Repr

/-- The function `load_things`: parse the YAML source into a list of
strings with serde_yaml (external; its result passed as `parsed`),
convert each string to a `Thing`, and enumerate the results so each
entry carries its position. -/
def load_things (render : String → String)
    (parsed : Except YamlError (List String)) : Except Error Things :=
  match parsed with
  | .error e => .error (.DeserializeError e)
  | .ok raw => .ok ⟨(raw.map (Thing.fromString render)).enum⟩

/-- The handlers registered by `make_service`. -/
inductive Handler where
  | index
  | slack_troubleshoot
deriving DecidableEq, Repr

/-- The routing table declared by the `#[get("/")]` and
`#[post("/slack/troubleshoot")]` attributes: which handler serves a
given method and path. -/
def dispatch (method path : String) : Option Handler :=
  if method = "GET" && path = "/" then some .index
  else if method = "POST" && path = "/slack/troubleshoot" then
    some .slack_troubleshoot
  else none

/-- The items produced by a successful load are the enumeration of the
converted source strings. -/
theorem load_things_items (render : String → String) (raw : List String)
    (things : Things) (hload : load_things render (.ok raw) = .ok things) :
    things.items = (raw.map (Thing.fromString render)).enum := by
  simp only [load_things, Except.ok.injEq] at hload
  subst hload
  rfl

/-- Lookup in the loaded list: position `i` holds the pair of `i` and
the thing built from the i-th source string. -/
theorem loaded_getElem (render : String → String) (raw : List String) (i : Nat)
    (hi : i < raw.length) :
    ((raw.map (Thing.fromString render)).enum)[i]? =
      some (i, Thing.fromString render raw[i]) := by
  rw [List.getElem?_enum, List.getElem?_map,
    List.getElem?_eq_getElem (by simpa using hi)]
  simp

/-- With a resolvable base URL and the urlencoded serializer, rendering
succeeds and produces the two links with their query strings. -/
theorem renderSuggestion_ok (u : Url) (s : Suggestion) :
    renderSuggestion (.ok u) (fun q => .ok q.encode) s =
      .ok ⟨s.index, s.thing,
        { u with query := some (ItemQuery.fromIdx s.index).encode },
        { u with query := some ItemQuery.defaultQuery.encode }⟩ := rfl

/-- The `index` handler on loaded data with a given in-range index:
the full success response, independent of the randomness state. -/
theorem index_loaded_fixed (render : String → String) (raw : List String)
    (things : Things) (hload : load_things render (.ok raw) = .ok things)
    (i : Nat) (hi : i < raw.length) (r : Nat) (u : Url) :
    index things ⟨some i⟩ r (.ok u) (fun q => .ok q.encode) =
      .ok ⟨200, "text/html", [("Cache-Control", "no-store")],
        ⟨i, Thing.fromString render raw[i],
          { u with query := some (ItemQuery.fromIdx i).encode },
          { u with query := some ItemQuery.defaultQuery.encode }⟩⟩ := by
  have h := load_things_items render raw things hload
  simp [index, selectThing, h, loaded_getElem render raw i hi,
    renderSuggestion_ok]

/-- C1: for a loaded list and any in-range index `i`, `GET /?item=i`
succeeds with status 200 and content type text/html, shows exactly the
suggestion at position `i`, and the response does not depend on the
randomness state, so repeated calls are byte-identical. -/
theorem c1_fixed_index (render : String → String) (raw : List String)
    (things : Things) (hload : load_things render (.ok raw) = .ok things)
    (i : Nat) (hi : i < raw.length) (r r' : Nat) (u : Url) :
    ∃ resp : HtmlResponse,
      index things ⟨some i⟩ r (.ok u) (fun q => .ok q.encode) = .ok resp ∧
      resp.status = 200 ∧ resp.contentType = "text/html" ∧
      resp.page.index = i ∧
      resp.page.thing = Thing.fromString render raw[i] ∧
      index things ⟨some i⟩ r' (.ok u) (fun q => .ok q.encode) = .ok resp :=
  ⟨_, index_loaded_fixed render raw things hload i hi r u, rfl, rfl, rfl, rfl,
    index_loaded_fixed render raw things hload i hi r' u⟩

/-- Witness for C1 at a concrete two-element list, index 1, randomness
states 5 and 9. -/
theorem c1_fixed_index_witness :
    ∃ resp : HtmlResponse,
      index ⟨[(0, ⟨"plug", "plug!"⟩), (1, ⟨"restart", "restart!"⟩)]⟩
          ⟨some 1⟩ 5 (.ok ⟨"http://x/", none⟩) (fun q => .ok q.encode) =
        .ok resp ∧
      resp.status = 200 ∧ resp.contentType = "text/html" ∧
      resp.page.index = 1 ∧
      resp.page.thing =
        Thing.fromString (fun s => s ++ "!")
          (["plug", "restart"] : List String)[1] ∧
      index ⟨[(0, ⟨"plug", "plug!"⟩), (1, ⟨"restart", "restart!"⟩)]⟩
          ⟨some 1⟩ 9 (.ok ⟨"http://x/", none⟩) (fun q => .ok q.encode) =
        .ok resp :=
  c1_fixed_index (fun s => s ++ "!") ["plug", "restart"]
    ⟨[(0, ⟨"plug", "plug!"⟩), (1, ⟨"restart", "restart!"⟩)]⟩ rfl
    1 (by decide) 5 9 ⟨"http://x/", none⟩

/-- C2: on a loaded list the page for index `i` records index `i`, its
share link is built from `ItemQuery::from` of that index (so it carries
`item = i`), and requesting that query again, under any randomness
state, returns the identical page. -/
theorem c2_round_trip (render : String → String) (raw : List String)
    (things : Things) (hload : load_things render (.ok raw) = .ok things)
    (i : Nat) (hi : i < raw.length) (r : Nat) (u : Url) :
    ∃ resp : HtmlResponse,
      index things (ItemQuery.fromIdx i) r (.ok u) (fun q => .ok q.encode) =
        .ok resp ∧
      resp.page.index = i ∧
      (ItemQuery.fromIdx resp.page.index).item = some i ∧
      resp.page.shareLink =
        { u with query := some (ItemQuery.fromIdx resp.page.index).encode } ∧
      ∀ r', index things (ItemQuery.fromIdx resp.page.index) r'
          (.ok u) (fun q => .ok q.encode) = .ok resp := by
  refine ⟨_, index_loaded_fixed render raw things hload i hi r u,
    rfl, rfl, rfl, ?_⟩
  intro r'
  exact index_loaded_fixed render raw things hload i hi r' u

/-- Witness for C2 at a concrete two-element list and index 0. -/
theorem c2_round_trip_witness :
    ∃ resp : HtmlResponse,
      index ⟨[(0, ⟨"plug", "plug!"⟩), (1, ⟨"restart", "restart!"⟩)]⟩
          (ItemQuery.fromIdx 0) 7 (.ok ⟨"http://x/", none⟩)
          (fun q => .ok q.encode) = .ok resp ∧
      resp.page.index = 0 ∧
      (ItemQuery.fromIdx resp.page.index).item = some 0 ∧
      resp.page.shareLink =
        { base := "http://x/",
          query := some (ItemQuery.fromIdx resp.page.index).encode } ∧
      ∀ r', index ⟨[(0, ⟨"plug", "plug!"⟩), (1, ⟨"restart", "restart!"⟩)]⟩
          (ItemQuery.fromIdx resp.page.index) r' (.ok ⟨"http://x/", none⟩)
          (fun q => .ok q.encode) = .ok resp :=
  c2_round_trip (fun s => s ++ "!") ["plug", "restart"]
    ⟨[(0, ⟨"plug", "plug!"⟩), (1, ⟨"restart", "restart!"⟩)]⟩ rfl
    0 (by decide) 7 ⟨"http://x/", none⟩

/-- C6: `load_things` fails (with the `DeserializeError` wrapper)
exactly when the YAML parse fails; on success the entries appear in
source order and position `i` holds the pair of `i` and the thing built
from the i-th string. -/
theorem c6_load_things (render : String → String)
    (parsed : Except YamlError (List String)) :
    (∀ ye, parsed = .error ye →
      load_things render parsed = .error (.DeserializeError ye)) ∧
    (∀ raw, parsed = .ok raw →
      ∃ things, load_things render parsed = .ok things ∧
        things.items.length = raw.length ∧
        ∀ i (hi : i < raw.length),
          things.items[i]? = some (i, Thing.fromString render raw[i])) := by
  constructor
  · rintro ye rfl
    rfl
  · rintro raw rfl
    refine ⟨_, rfl, ?_, ?_⟩
    · simp [List.enum_length]
    · intro i hi
      exact loaded_getElem render raw i hi

/-- Witness for C6: a failing parse is reported as a
`DeserializeError`, and a two-string parse loads in order. -/
theorem c6_load_things_witness :
    load_things (fun s => s ++ "!") (.error ⟨"bad yaml"⟩) =
      .error (.DeserializeError ⟨"bad yaml"⟩) ∧
    ∃ things,
      load_things (fun s => s ++ "!") (.ok ["plug", "restart"]) =
        .ok things ∧
      things.items.length = (["plug", "restart"] : List String).length ∧
      ∀ i (hi : i < (["plug", "restart"] : List String).length),
        things.items[i]? =
          some (i, Thing.fromString (fun s => s ++ "!")
            (["plug", "restart"] : List String)[i]) :=
  ⟨(c6_load_things (fun s => s ++ "!") (.error ⟨"bad yaml"⟩)).1 ⟨"bad yaml"⟩ rfl,
    (c6_load_things (fun s => s ++ "!") (.ok ["plug", "restart"])).2
      ["plug", "restart"] rfl⟩

/-- Random choice fails exactly on the empty list. -/
theorem choose_eq_none_iff (l : List α) (r : Nat) :
    choose l r = none ↔ l = [] := by
  rcases l with _ | ⟨a, t⟩
  · simp [choose]
  · simp only [choose, List.isEmpty_cons, if_false, Bool.false_eq_true]
    rw [List.getElem?_eq_getElem (Nat.mod_lt r (by simp))]
    simp

/-- A successfully chosen element belongs to the list. -/
theorem choose_mem (l : List α) (r : Nat) (x : α)
    (h : choose l r = some x) : x ∈ l := by
  unfold choose at h
  split at h
  · exact absurd h (by simp)
  · exact List.getElem?_mem h

/-- Every element of the list is chosen under some randomness state:
the state that draws its position. -/
theorem choose_coverage (l : List α) (x : α) (h : x ∈ l) :
    ∃ r, choose l r = some x := by
  obtain ⟨n, hn, rfl⟩ := List.mem_iff_getElem.mp h
  have hne : l.isEmpty = false := by
    rcases l with _ | _
    · simp at hn
    · rfl
  refine ⟨n, ?_⟩
  unfold choose
  rw [hne]
  simp only [Bool.false_eq_true, if_false]
  rw [Nat.mod_eq_of_lt hn, List.getElem?_eq_getElem hn]

/-- C3: with no index given, selection fails exactly on the empty list
(and then the handler answers NotFound); any selected entry is an
element of the list; and every entry of the list is selected under some
randomness state. -/
theorem c3_random_selection (things : Things) :
    (∀ r, selectThing things none r = none ↔ things.items = []) ∧
    (∀ r p, selectThing things none r = some p → p ∈ things.items) ∧
    (∀ p, p ∈ things.items → ∃ r, selectThing things none r = some p) ∧
    (∀ r ufi enc, index things ⟨none⟩ r ufi enc =
        .error (.notFound "Not found") ↔ things.items = []) := by
  refine ⟨fun r => choose_eq_none_iff things.items r,
    fun r p => choose_mem things.items r p,
    fun p hp => choose_coverage things.items p hp, ?_⟩
  intro r ufi enc
  constructor
  · intro h
    by_contra hne
    rcases hc : choose things.items r with _ | p
    · exact hne ((choose_eq_none_iff things.items r).mp hc)
    · obtain ⟨idx, th⟩ := p
      rcases hr : renderSuggestion ufi enc ⟨th, idx⟩ with e | page
      · have hx : index things ⟨none⟩ r ufi enc = .error e.toHttpError := by
          simp [index, selectThing, hc, hr]
        rw [hx] at h
        simp [UrlError.toHttpError] at h
      · have hx : index things ⟨none⟩ r ufi enc =
            .ok ⟨200, "text/html", [("Cache-Control", "no-store")], page⟩ := by
          simp [index, selectThing, hc, hr]
        rw [hx] at h
        simp at h
  · intro h
    simp [index, selectThing, choose, h]

/-- Witness for C3: on a concrete two-element list, entry 1 is reached
under randomness state 1. -/
theorem c3_random_selection_witness :
    ∃ r, selectThing ⟨[(0, ⟨"plug", "plug!"⟩), (1, ⟨"restart", "restart!"⟩)]⟩
        none r = some (1, ⟨"restart", "restart!"⟩) :=
  (c3_random_selection
      ⟨[(0, ⟨"plug", "plug!"⟩), (1, ⟨"restart", "restart!"⟩)]⟩).2.2.1
    (1, ⟨"restart", "restart!"⟩) (by simp)

/-- C4: on a non-empty list the Slack endpoint succeeds with status
200, content type application/json, a body whose response_type is
in_channel, and a text equal to the raw markdown of some entry. -/
theorem c4_slack_message (things : Things) (h : things.items ≠ [])
    (r : Nat) :
    ∃ resp : JsonResponse, slack_troubleshoot things r = .ok resp ∧
      resp.status = 200 ∧ resp.contentType = "application/json" ∧
      resp.body.response_type = "in_channel" ∧
      ∃ p, p ∈ things.items ∧ resp.body.text = p.2.markdown := by
  rcases hc : choose things.items r with _ | p
  · exact absurd ((choose_eq_none_iff things.items r).mp hc) h
  · obtain ⟨idx, th⟩ := p
    refine ⟨⟨200, "application/json", ⟨"in_channel", th.markdown⟩⟩, ?_,
      rfl, rfl, rfl, (idx, th), choose_mem things.items r (idx, th) hc, rfl⟩
    simp [slack_troubleshoot, hc]

/-- Witness for C4 at a concrete one-element list. -/
theorem c4_slack_message_witness :
    ∃ resp : JsonResponse,
      slack_troubleshoot ⟨[(0, ⟨"plug", "plug!"⟩)]⟩ 3 = .ok resp ∧
      resp.status = 200 ∧ resp.contentType = "application/json" ∧
      resp.body.response_type = "in_channel" ∧
      ∃ p, p ∈ (Things.mk [(0, ⟨"plug", "plug!"⟩)]).items ∧
        resp.body.text = p.2.markdown :=
  c4_slack_message ⟨[(0, ⟨"plug", "plug!"⟩)]⟩ (by simp) 3

/-- C5: an `item` index at or beyond the length of the list (in
particular any index when the list is empty) makes `GET /` answer the
NotFound error, whose status is 404. -/
theorem c5_out_of_range (things : Things) (i : Nat)
    (hi : things.items.length ≤ i) (r : Nat) (ufi : Except String Url)
    (enc : ItemQuery → Except String String) :
    index things ⟨some i⟩ r ufi enc = .error (.notFound "Not found") ∧
    (HttpError.notFound "Not found").status = 404 := by
  refine ⟨?_, rfl⟩
  simp [index, selectThing, List.getElem?_eq_none hi]

/-- Witness for C5: index 2 on a two-element list, and index 0 on the
empty list. -/
theorem c5_out_of_range_witness :
    (index ⟨[(0, ⟨"plug", "plug!"⟩), (1, ⟨"restart", "restart!"⟩)]⟩
        ⟨some 2⟩ 4 (.ok ⟨"http://x/", none⟩) (fun q => .ok q.encode) =
      .error (.notFound "Not found") ∧
    (HttpError.notFound "Not found").status = 404) ∧
    (index ⟨[]⟩ ⟨some 0⟩ 4 (.ok ⟨"http://x/", none⟩)
        (fun q => .ok q.encode) =
      .error (.notFound "Not found") ∧
    (HttpError.notFound "Not found").status = 404) :=
  ⟨c5_out_of_range ⟨[(0, ⟨"plug", "plug!"⟩), (1, ⟨"restart", "restart!"⟩)]⟩
      2 (by decide) 4 (.ok ⟨"http://x/", none⟩) (fun q => .ok q.encode),
    c5_out_of_range ⟨[]⟩ 0 (by decide) 4 (.ok ⟨"http://x/", none⟩)
      (fun q => .ok q.encode)⟩

/-- A selected pair belongs to the item list, whichever branch of the
selection produced it. -/
theorem selectThing_mem (things : Things) (item : Option Nat) (r : Nat)
    (p : Nat × Thing) (h : selectThing things item r = some p) :
    p ∈ things.items := by
  rcases item with _ | i
  · exact choose_mem things.items r p h
  · exact List.getElem?_mem h

/-- A successfully rendered page keeps the suggestion's index and
thing. -/
theorem renderSuggestion_page (urlForIndex : Except String Url)
    (toUrlencoded : ItemQuery → Except String String) (s : Suggestion)
    (page : RenderedPage)
    (h : renderSuggestion urlForIndex toUrlencoded s = .ok page) :
    page.index = s.index ∧ page.thing = s.thing := by
  unfold renderSuggestion at h
  split at h
  · exact absurd h (by simp)
  · split at h
    · exact absurd h (by simp)
    · injection h with h
      subst h
      exact ⟨rfl, rfl⟩

/-- C7: every success response of `GET /` carries the
`Cache-Control: no-store` header. -/
theorem c7_no_store (things : Things) (query : ItemQuery) (r : Nat)
    (ufi : Except String Url) (enc : ItemQuery → Except String String)
    (resp : HtmlResponse) (h : index things query r ufi enc = .ok resp) :
    ("Cache-Control", "no-store") ∈ resp.headers := by
  unfold index at h
  split at h
  · exact absurd h (by simp)
  · split at h
    · exact absurd h (by simp)
    · injection h with h
      subst h
      simp

/-- Witness for C7 at a concrete one-element list with a fixed
index. -/
theorem c7_no_store_witness :
    ("Cache-Control", "no-store") ∈
      (HtmlResponse.mk 200 "text/html" [("Cache-Control", "no-store")]
        ⟨0, ⟨"plug", "plug!"⟩, ⟨"http://x/", some "item=0"⟩,
          ⟨"http://x/", some ""⟩⟩).headers :=
  c7_no_store ⟨[(0, ⟨"plug", "plug!"⟩)]⟩ ⟨some 0⟩ 2 (.ok ⟨"http://x/", none⟩)
    (fun q => .ok q.encode)
    ⟨200, "text/html", [("Cache-Control", "no-store")],
      ⟨0, ⟨"plug", "plug!"⟩, ⟨"http://x/", some "item=0"⟩,
        ⟨"http://x/", some ""⟩⟩⟩ rfl

/-- C8: when selection succeeds but building the page links fails, the
handler answers with the converted URL error: an internal server error
of status 500, never the NotFound error (and not a success). -/
theorem c8_url_error (things : Things) (query : ItemQuery) (r : Nat)
    (ufi : Except String Url) (enc : ItemQuery → Except String String)
    (p : Nat × Thing) (e : UrlError)
    (hsel : selectThing things query.item r = some p)
    (hrender : renderSuggestion ufi enc ⟨p.2, p.1⟩ = .error e) :
    index things query r ufi enc = .error e.toHttpError ∧
    e.toHttpError.status = 500 ∧
    ∀ msg, e.toHttpError ≠ .notFound msg := by
  obtain ⟨idx, th⟩ := p
  have hr2 : renderSuggestion ufi enc ⟨th, idx⟩ = .error e := hrender
  refine ⟨?_, rfl, ?_⟩
  · simp [index, hsel, hr2]
  · intro msg hmsg
    simp [UrlError.toHttpError] at hmsg

/-- Witness for C8: a one-element list whose base URL cannot be
resolved. -/
theorem c8_url_error_witness :
    index ⟨[(0, ⟨"plug", "plug!"⟩)]⟩ ⟨some 0⟩ 1 (.error "no base url")
        (fun q => .ok q.encode) =
      .error (UrlError.UrlGenerationError "no base url").toHttpError ∧
    (UrlError.UrlGenerationError "no base url").toHttpError.status = 500 ∧
    ∀ msg, (UrlError.UrlGenerationError "no base url").toHttpError ≠
      .notFound msg :=
  c8_url_error ⟨[(0, ⟨"plug", "plug!"⟩)]⟩ ⟨some 0⟩ 1 (.error "no base url")
    (fun q => .ok q.encode) (0, ⟨"plug", "plug!"⟩)
    (.UrlGenerationError "no base url") rfl rfl

/-- C9 counterexample: no handler is mounted at `POST /troubleshoot`;
that method and path match no route of the service. -/
theorem c9_counterexample : dispatch "POST" "/troubleshoot" = none := by
  decide

/-- C9 amended: the chat-integration endpoint is served at path
`/slack/troubleshoot` and responds to the POST method; the same path
with GET matches no route. -/
theorem c9_amended :
    dispatch "POST" "/slack/troubleshoot" = some Handler.slack_troubleshoot ∧
    dispatch "GET" "/slack/troubleshoot" = none := by
  decide

/-- C10: the conversion from a source string keeps the markdown
unchanged and stores its rendering; every loaded entry's html equals
the render of its stored markdown, fixed at load time; the Slack
endpoint returns the raw markdown of some entry; and a successful page
carries one of the loaded things unchanged, with its index. -/
theorem c10_markdown_policy (render : String → String) (s : String) :
    (Thing.fromString render s).markdown = s ∧
    (Thing.fromString render s).html = render s ∧
    (∀ raw things, load_things render (.ok raw) = .ok things →
      ∀ p, p ∈ things.items → p.2.html = render p.2.markdown) ∧
    (∀ things r resp, slack_troubleshoot things r = .ok resp →
      ∃ p, p ∈ things.items ∧ resp.body.text = p.2.markdown) ∧
    (∀ things query r ufi enc resp,
      index things query r ufi enc = .ok resp →
      ∃ p, p ∈ things.items ∧ resp.page.thing = p.2 ∧
        resp.page.index = p.1) := by
  refine ⟨rfl, rfl, ?_, ?_, ?_⟩
  · intro raw things hload p hp
    rw [load_things_items render raw things hload,
      List.mem_enum_iff_getElem?, List.getElem?_map] at hp
    rcases hmap : raw[p.1]? with _ | t
    · rw [hmap] at hp
      simp at hp
    · rw [hmap] at hp
      simp only [Option.map_some', Option.some.injEq] at hp
      rw [← hp]
      rfl
  · intro things r resp h
    rcases hc : choose things.items r with _ | ⟨idx, th⟩
    · have hx : slack_troubleshoot things r =
          .error (.notFound "Not found") := by
        simp [slack_troubleshoot, hc]
      rw [hx] at h
      exact absurd h (by simp)
    · have hx : slack_troubleshoot things r =
          .ok ⟨200, "application/json", ⟨"in_channel", th.markdown⟩⟩ := by
        simp [slack_troubleshoot, hc]
      rw [hx] at h
      injection h with h
      subst h
      exact ⟨(idx, th), choose_mem things.items r (idx, th) hc, rfl⟩
  · intro things query r ufi enc resp h
    rcases hc : selectThing things query.item r with _ | ⟨idx, th⟩
    · have hx : index things query r ufi enc =
          .error (.notFound "Not found") := by
        simp [index, hc]
      rw [hx] at h
      exact absurd h (by simp)
    · rcases hr : renderSuggestion ufi enc ⟨th, idx⟩ with e | page
      · have hx : index things query r ufi enc = .error e.toHttpError := by
          simp [index, hc, hr]
        rw [hx] at h
        exact absurd h (by simp)
      · have hx : index things query r ufi enc =
            .ok ⟨200, "text/html", [("Cache-Control", "no-store")], page⟩ := by
          simp [index, hc, hr]
        rw [hx] at h
        injection h with h
        subst h
        obtain ⟨hpi, hpt⟩ :=
          renderSuggestion_page ufi enc ⟨th, idx⟩ page hr
        exact ⟨(idx, th), selectThing_mem things query.item r (idx, th) hc,
          hpt, hpi⟩

/-- Witness for C10: the Slack reply on a concrete one-element list
carries that entry's raw markdown. -/
theorem c10_markdown_policy_witness :
    ∃ p, p ∈ (Things.mk [(0, ⟨"plug", "plug!"⟩)]).items ∧
      (JsonResponse.mk 200 "application/json"
        ⟨"in_channel", "plug"⟩).body.text = p.2.markdown :=
  (c10_markdown_policy (fun s => s ++ "!") "plug").2.2.2.1
    ⟨[(0, ⟨"plug", "plug!"⟩)]⟩ 0
    ⟨200, "application/json", ⟨"in_channel", "plug"⟩⟩ rfl

end ThingsToCheck
